import Mathlib

/-!
Shallow embedding of the botanica biodiversity-standards core
(src/conservation.rs, src/darwin_core.rs, src/contextlite.rs, src/error.rs)
and proofs of the specification claims about it.
-/

namespace Botanica

/-!  IEEE floating point model.

The source only ever compares `f32`/`f64` values with the literals `0.0` and
`1.0` (`lat != 0.0`, `score < 0.0`, `score > 1.0`); no float arithmetic is
performed.  We therefore model a float as either NaN, an infinity, or a finite
value (a rational), and give `<`, `==` and `!=` their IEEE-754 semantics on
this carrier: every comparison involving NaN is false (so `!=` involving NaN
is true), `-0.0` is the same finite value as `0.0`, and infinities compare as
extreme elements. -/
inductive FloatVal where
  | nan : FloatVal
  | inf : FloatVal
  | neginf : FloatVal
  | fin : ℚ → FloatVal
deriving DecidableEq, Repr

namespace FloatVal

/-- IEEE `<`: false whenever either side is NaN. -/
def flt : FloatVal → FloatVal → Bool
  | .nan, _ => false
  | _, .nan => false
  | .inf, _ => false
  | _, .inf => true
  | .neginf, .neginf => false
  | .neginf, .fin _ => true
  | .fin _, .neginf => false
  | .fin a, .fin b => decide (a < b)

/-- IEEE `==`: false whenever either side is NaN. -/
def feq : FloatVal → FloatVal → Bool
  | .nan, _ => false
  | _, .nan => false
  | .inf, .inf => true
  | .neginf, .neginf => true
  | .fin a, .fin b => decide (a = b)
  | _, _ => false

/-- IEEE `!=`, the negation of IEEE `==` (true whenever either side is NaN). -/
def fne (a b : FloatVal) : Bool := !(feq a b)

end FloatVal

/-!  src/error.rs  -/

/-- Rust `enum DatabaseError` from src/error.rs.  The `SqlxError` payload is an
external library type; only its presence matters here, so it is modelled as a
string. -/
inductive DatabaseError where
  | SqlxError : String → DatabaseError
  | MigrationError : String → DatabaseError
  | ConfigError : String → DatabaseError
  | ValidationError : String → DatabaseError
  | NotFound : String → DatabaseError
  | ConstraintViolation : String → DatabaseError
  | ContextLiteError : String → DatabaseError
deriving DecidableEq, Repr

/-!  External collaborator types.

Modelled from the spec: the crate's `src/types.rs` (the `Species` entity and
its accessors) is not among the provided source files; the spec describes it
as `Species{id, specific_epithet, authority, genus_id, publication_year}`
supplied by value, with the adapter reading the specific epithet and the
authority through `get_specific_epithet` / `get_authority`. -/

/-- Uuid values are opaque identifiers here; `Uuid::new_v4()` is random, so
every embedded constructor that calls it takes the fresh id as an argument. -/
structure Uuid where
  val : ℕ
deriving DecidableEq, Repr

/-- Calendar date standing in for `chrono::NaiveDate`. -/
structure NaiveDate where
  year : ℤ
  month : ℕ
  day : ℕ
deriving DecidableEq, Repr

/-- Modelled from the spec: `Species{id, specific_epithet, authority, genus_id,
publication_year}` as supplied by the persistence collaborator (src/types.rs is
not among the provided sources). -/
structure Species where
  id : Uuid
  genus_id : Uuid
  specific_epithet : String
  authority : String
  publication_year : Option ℤ
deriving DecidableEq, Repr

/-- Modelled from the spec: accessor returning the specific epithet field. -/
def Species.get_specific_epithet (s : Species) : String := s.specific_epithet

/-- Modelled from the spec: accessor returning the authority field. -/
def Species.get_authority (s : Species) : String := s.authority

/-!  src/conservation.rs  -/

/-- Rust `enum IUCNCategory` (src/conservation.rs, lines 14-33). -/
inductive IUCNCategory where
  | NotEvaluated
  | DataDeficient
  | LeastConcern
  | NearThreatened
  | Vulnerable
  | Endangered
  | CriticallyEndangered
  | ExtinctInWild
  | Extinct
deriving DecidableEq, Repr

/-- Rust `enum PopulationTrend` (src/conservation.rs, lines 56-61). -/
inductive PopulationTrend where
  | Increasing
  | Stable
  | Decreasing
  | Unknown
deriving DecidableEq, Repr

/-- Rust `struct ConservationAssessment` (src/conservation.rs, lines 66-85). -/
structure ConservationAssessment where
  category : IUCNCategory
  criteria : Option String
  assessment_date : NaiveDate
  population_trend : PopulationTrend
  threats : List String
  conservation_actions : List String
  actions_needed : List String
  assessor : Option String
  reviewer : Option String
deriving DecidableEq, Repr

/-- Rust `IUCNClient::fetch_mock_conservation_data` (src/conservation.rs,
lines 115-150): a match on the scientific name yielding the two hard-coded
assessments, wrapped in `Ok` (the function body has no error path; the
`Result` error type `Box<dyn Error>` is modelled as `String`). -/
def fetch_mock_conservation_data (scientific_name : String) :
    Except String (Option ConservationAssessment) :=
  Except.ok (match scientific_name with
    | "Cannabis sativa" => some {
        category := IUCNCategory.NotEvaluated
        criteria := none
        assessment_date := ⟨2024, 1, 1⟩
        population_trend := PopulationTrend.Unknown
        threats := ["Legal restrictions", "Habitat loss"]
        conservation_actions := ["Cultivation programs"]
        actions_needed := ["Legal status review"]
        assessor := some "Mock Assessment"
        reviewer := none }
    | "Welwitschia mirabilis" => some {
        category := IUCNCategory.NearThreatened
        criteria := some "A2acd"
        assessment_date := ⟨2019, 7, 18⟩
        population_trend := PopulationTrend.Decreasing
        threats := ["Climate change", "Collection"]
        conservation_actions := ["Protected areas"]
        actions_needed := ["Population monitoring"]
        assessor := some "IUCN Species Specialist Group"
        reviewer := some "IUCN Red List Unit" }
    | _ => none)

/-- Rust `IUCNClient::get_conservation_status` (src/conservation.rs, lines
105-112): simply delegates to the mock fetch. -/
def get_conservation_status (scientific_name : String) :
    Except String (Option ConservationAssessment) :=
  fetch_mock_conservation_data scientific_name

/-- The `match` expression inside `integration::update_species_conservation_status`
(src/conservation.rs, lines 169-180), as a function of the fetch result:
`Ok(Some(a))` and `Ok(None)` pass through; `Err(e)` is logged and downgraded
to `Ok(None)` (graceful degradation). -/
def handle_conservation_fetch (r : Except String (Option ConservationAssessment)) :
    Except DatabaseError (Option ConservationAssessment) :=
  match r with
  | Except.ok (some assessment) => Except.ok (some assessment)
  | Except.ok none => Except.ok none
  | Except.error _ => Except.ok none

/-- Rust `integration::update_species_conservation_status` (src/conservation.rs,
lines 162-181).  The `_db` and `_species_id` parameters are unused in the
source and omitted here. -/
def update_species_conservation_status (scientific_name : String) :
    Except DatabaseError (Option ConservationAssessment) :=
  handle_conservation_fetch (get_conservation_status scientific_name)

/-- Rust `integration::is_species_threatened` (src/conservation.rs, lines
184-192): `matches!` on the five threatened-or-worse categories. -/
def is_species_threatened (assessment : ConservationAssessment) : Bool :=
  match assessment.category with
  | IUCNCategory.Vulnerable => true
  | IUCNCategory.Endangered => true
  | IUCNCategory.CriticallyEndangered => true
  | IUCNCategory.ExtinctInWild => true
  | IUCNCategory.Extinct => true
  | _ => false

/-- Rust `integration::get_conservation_priority` (src/conservation.rs, lines
195-207).  The return type `u8` is modelled as `ℕ` (all table values are at
most 10, far below 2^8, so no overflow behaviour is involved). -/
def get_conservation_priority (assessment : ConservationAssessment) : ℕ :=
  match assessment.category with
  | IUCNCategory.Extinct => 10
  | IUCNCategory.ExtinctInWild => 9
  | IUCNCategory.CriticallyEndangered => 8
  | IUCNCategory.Endangered => 7
  | IUCNCategory.Vulnerable => 6
  | IUCNCategory.NearThreatened => 4
  | IUCNCategory.DataDeficient => 3
  | IUCNCategory.LeastConcern => 1
  | IUCNCategory.NotEvaluated => 0

/-- The priority table exactly as the specification words it (spec section 4.2):
NotEvaluated=0, LeastConcern=1, DataDeficient=3, NearThreatened=4,
Vulnerable=6, Endangered=7, CriticallyEndangered=8, ExtinctInWild=9,
Extinct=10.  Kept separate from `get_conservation_priority` so that the claim
is a comparison of the two tables. -/
def specPriorityTable : IUCNCategory → ℕ
  | IUCNCategory.NotEvaluated => 0
  | IUCNCategory.LeastConcern => 1
  | IUCNCategory.DataDeficient => 3
  | IUCNCategory.NearThreatened => 4
  | IUCNCategory.Vulnerable => 6
  | IUCNCategory.Endangered => 7
  | IUCNCategory.CriticallyEndangered => 8
  | IUCNCategory.ExtinctInWild => 9
  | IUCNCategory.Extinct => 10

/-!  src/darwin_core.rs  -/

/-- Rust `enum BasisOfRecord` (src/darwin_core.rs, lines 78-88). -/
inductive BasisOfRecord where
  | PreservedSpecimen
  | FossilSpecimen
  | LivingSpecimen
  | HumanObservation
  | MachineObservation
  | MaterialSample
  | Event
  | Taxon
  | Occurrence
deriving DecidableEq, Repr

/-- Rust `enum OccurrenceStatus` (src/darwin_core.rs, lines 93-96). -/
inductive OccurrenceStatus where
  | Present
  | Absent
deriving DecidableEq, Repr

/-- Rust `enum EstablishmentMeans` (src/darwin_core.rs, lines 101-108). -/
inductive EstablishmentMeans where
  | Native
  | Introduced
  | Naturalised
  | Invasive
  | Managed
  | Cultivated
deriving DecidableEq, Repr

/-- Rust `enum TaxonomicStatus` (src/darwin_core.rs, lines 113-120). -/
inductive TaxonomicStatus where
  | Accepted
  | Synonym
  | DoubtfulSynonym
  | Misapplied
  | Homonym
  | ProvisionallyAccepted
deriving DecidableEq, Repr

/-- Rust `enum TaxonRank` (src/darwin_core.rs, lines 125-137). -/
inductive TaxonRank where
  | Kingdom
  | Phylum
  | Class
  | Order
  | Family
  | Genus
  | Species
  | Subspecies
  | Variety
  | Form
  | Cultivar
deriving DecidableEq, Repr

/-- Rust `enum NomenclaturalCode` (src/darwin_core.rs, lines 142-147). -/
inductive NomenclaturalCode where
  | ICN
  | ICZN
  | ICNP
  | ICVCN
deriving DecidableEq, Repr

/-- Timestamp standing in for `chrono::DateTime<Utc>`; carried opaquely (the
embedded code never constructs or inspects one). -/
structure DateTimeUtc where
  ticks : ℤ
deriving DecidableEq, Repr

/-- Rust `struct DarwinCoreOccurrence` (src/darwin_core.rs, lines 19-57).
The Rust field `class` is a Lean keyword and is rendered `class_`;
`f64` fields use the `FloatVal` model and `i32` uses `ℤ` (the only value ever
stored is 1). -/
structure DarwinCoreOccurrence where
  occurrence_id : Uuid
  scientific_name : String
  kingdom : Option String
  phylum : Option String
  class_ : Option String
  order : Option String
  family : Option String
  genus : Option String
  specific_epithet : Option String
  event_date : Option NaiveDate
  event_time : Option DateTimeUtc
  recorded_by : Option String
  decimal_latitude : Option FloatVal
  decimal_longitude : Option FloatVal
  coordinate_uncertainty_in_meters : Option FloatVal
  country : Option String
  state_province : Option String
  locality : Option String
  basis_of_record : BasisOfRecord
  occurrence_status : OccurrenceStatus
  catalog_number : Option String
  collection_code : Option String
  institution_code : Option String
  individual_count : Option ℤ
  life_stage : Option String
  reproductive_condition : Option String
  establishment_means : Option EstablishmentMeans
  preparations : Option String
deriving DecidableEq, Repr

/-- Rust `struct DarwinCoreTaxon` (src/darwin_core.rs, lines 62-73). -/
structure DarwinCoreTaxon where
  taxon_id : Uuid
  scientific_name : String
  scientific_name_authorship : Option String
  taxonomic_status : TaxonomicStatus
  taxon_rank : TaxonRank
  nomenclatural_code : Option NomenclaturalCode
  nomenclatural_status : Option String
  parent_name_usage_id : Option Uuid
  accepted_name_usage_id : Option Uuid
  original_name_usage_id : Option Uuid
deriving DecidableEq, Repr

/-- Rust `conversion::species_to_darwin_core_taxon` (src/darwin_core.rs, lines
157-173).  `Uuid::new_v4()` is random, so the fresh id is an explicit
argument; `format!("{} {}", genus_name, species.get_specific_epithet())` is
string concatenation with a single space. -/
def species_to_darwin_core_taxon (fresh_id : Uuid) (species : Species)
    (genus_name : String) : DarwinCoreTaxon :=
  { taxon_id := fresh_id
    scientific_name := genus_name ++ " " ++ species.get_specific_epithet
    scientific_name_authorship := some species.get_authority
    taxonomic_status := TaxonomicStatus.Accepted
    taxon_rank := TaxonRank.Species
    nomenclatural_code := some NomenclaturalCode.ICN
    nomenclatural_status := none
    parent_name_usage_id := none
    accepted_name_usage_id := none
    original_name_usage_id := none }

/-- Rust `conversion::create_occurrence_record` (src/darwin_core.rs, lines
176-218).  `let (lat, lon) = location.unwrap_or((0.0, 0.0));` then each
coordinate axis is stored only when it is IEEE-unequal to `0.0`. -/
def create_occurrence_record (fresh_id : Uuid) (species : Species)
    (genus_name family_name : String) (location : Option (FloatVal × FloatVal))
    (collection_info : Option String) : DarwinCoreOccurrence :=
  let latlon := location.getD (FloatVal.fin 0, FloatVal.fin 0)
  let lat := latlon.1
  let lon := latlon.2
  { occurrence_id := fresh_id
    scientific_name := genus_name ++ " " ++ species.get_specific_epithet
    kingdom := some "Plantae"
    phylum := none
    class_ := none
    order := none
    family := some family_name
    genus := some genus_name
    specific_epithet := some species.get_specific_epithet
    event_date := none
    event_time := none
    recorded_by := collection_info
    decimal_latitude := if FloatVal.fne lat (FloatVal.fin 0) then some lat else none
    decimal_longitude := if FloatVal.fne lon (FloatVal.fin 0) then some lon else none
    coordinate_uncertainty_in_meters := none
    country := none
    state_province := none
    locality := none
    basis_of_record := BasisOfRecord.PreservedSpecimen
    occurrence_status := OccurrenceStatus.Present
    catalog_number := none
    collection_code := none
    institution_code := none
    individual_count := some 1
    life_stage := none
    reproductive_condition := none
    establishment_means := none
    preparations := none }

/-- Rust `queries::validate_darwin_core_record` (src/darwin_core.rs, lines
239-255): starts from an empty warning vector and pushes one warning per
missing-field condition, in source order. -/
def validate_darwin_core_record (record : DarwinCoreOccurrence) : List String :=
  let warnings : List String := []
  let warnings :=
    if record.decimal_latitude.isNone || record.decimal_longitude.isNone then
      warnings ++ ["Missing geographic coordinates"]
    else warnings
  let warnings :=
    if record.event_date.isNone then
      warnings ++ ["Missing collection date"]
    else warnings
  let warnings :=
    if record.recorded_by.isNone then
      warnings ++ ["Missing collector information"]
    else warnings
  warnings

/-!  src/contextlite.rs  -/

/-- Rust `struct ContextDocument` (src/contextlite.rs, lines 46-52). -/
structure ContextDocument where
  id : String
  title : String
  source : String
  relevance_score : FloatVal
  content_snippet : String
deriving DecidableEq, Repr

/-- Rust `struct PlantContextResponse` (src/contextlite.rs, lines 35-42);
`confidence_score` is an `f32`, modelled by `FloatVal`. -/
structure PlantContextResponse where
  plant_id : Uuid
  query : String
  context : String
  recommendations : List String
  relevant_documents : List ContextDocument
  confidence_score : FloatVal
deriving DecidableEq, Repr

/-- Checks that `pat` occurs at the head of the second list. -/
def leadsWith : List Char → List Char → Bool
  | [], _ => true
  | _ :: _, [] => false
  | p :: ps, c :: cs => p == c && leadsWith ps cs

/-- Substring occurrence on character lists: `pat` occurs somewhere in `s`.
For valid UTF-8 with our ASCII patterns this coincides with Rust
`str::contains`. -/
def hasSubstr (pat : List Char) : List Char → Bool
  | [] => pat.isEmpty
  | c :: cs => leadsWith pat (c :: cs) || hasSubstr pat cs

/-- Rust `str::contains(pat)` on the model strings. -/
def strContains (s pat : String) : Bool := hasSubstr pat.data s.data

/-- Rust `str::to_lowercase()`.  Modelled as per-character lowercasing, which
agrees with Rust on ASCII text (all keyword patterns are ASCII). -/
def to_lowercase (s : String) : String := s.map Char.toLower

/-- Rust `extract_recommendations` (src/contextlite.rs, lines 176-228): an
early return on the empty string, then nine independent keyword rules pushing
literal recommendation strings in source order, then a fallback when none
fired. -/
def extract_recommendations (context : String) : List String :=
  let recommendations : List String := []
  if context.isEmpty then recommendations
  else
    let context_lower := to_lowercase context
    let recommendations :=
      if strContains context_lower "nutrient" && strContains context_lower "deficiency" then
        recommendations ++ ["Consider adjusting nutrient levels"]
      else recommendations
    let recommendations :=
      if strContains context_lower "water" &&
          (strContains context_lower "over" || strContains context_lower "under") then
        recommendations ++ ["Review watering schedule"]
      else recommendations
    let recommendations :=
      if strContains context_lower "light" && strContains context_lower "stress" then
        recommendations ++ ["Adjust lighting conditions"]
      else recommendations
    let recommendations :=
      if strContains context_lower "ph" then
        recommendations ++ ["Check and adjust soil/water pH levels"]
      else recommendations
    let recommendations :=
      if strContains context_lower "harvest" && strContains context_lower "ready" then
        recommendations ++ ["Consider harvest timing evaluation"]
      else recommendations
    let recommendations :=
      if strContains context_lower "temperature" then
        recommendations ++ ["Monitor temperature conditions"]
      else recommendations
    let recommendations :=
      if strContains context_lower "pest" || strContains context_lower "insect" then
        recommendations ++ ["Check for pest management needs"]
      else recommendations
    let recommendations :=
      if strContains context_lower "disease" || strContains context_lower "fungus" then
        recommendations ++ ["Evaluate plant health and disease prevention"]
      else recommendations
    let recommendations :=
      if strContains context_lower "pruning" || strContains context_lower "trim" then
        recommendations ++ ["Consider pruning and plant training techniques"]
      else recommendations
    let recommendations :=
      if recommendations.isEmpty then
        recommendations ++ ["Review cultivation data and environmental conditions"]
      else recommendations
    recommendations

/-- One keyword rule of the spec's rule table: a case-insensitive substring
test over the lowercased input and the literal recommendation it emits. -/
structure KeywordRule where
  fires : String → Bool
  emitted : String

/-- The rule table exactly as the specification lays it out (spec section 4.3),
in table order. -/
def recommendationRules : List KeywordRule :=
  [ ⟨fun cl => strContains cl "nutrient" && strContains cl "deficiency",
      "Consider adjusting nutrient levels"⟩,
    ⟨fun cl => strContains cl "water" && (strContains cl "over" || strContains cl "under"),
      "Review watering schedule"⟩,
    ⟨fun cl => strContains cl "light" && strContains cl "stress",
      "Adjust lighting conditions"⟩,
    ⟨fun cl => strContains cl "ph",
      "Check and adjust soil/water pH levels"⟩,
    ⟨fun cl => strContains cl "harvest" && strContains cl "ready",
      "Consider harvest timing evaluation"⟩,
    ⟨fun cl => strContains cl "temperature",
      "Monitor temperature conditions"⟩,
    ⟨fun cl => strContains cl "pest" || strContains cl "insect",
      "Check for pest management needs"⟩,
    ⟨fun cl => strContains cl "disease" || strContains cl "fungus",
      "Evaluate plant health and disease prevention"⟩,
    ⟨fun cl => strContains cl "pruning" || strContains cl "trim",
      "Consider pruning and plant training techniques"⟩ ]

/-- The recommendations of the rules that fire on a lowercased input, in rule
table order (the spec-side description of the extractor's output when at
least one rule fires). -/
def firedRecommendations (context_lower : String) : List String :=
  (recommendationRules.filter (fun r => r.fires context_lower)).map KeywordRule.emitted

/-- Rust `validate_context_response` (src/contextlite.rs, lines 251-265):
rejects an empty query, an empty context, then an out-of-range confidence
score, via IEEE `<` comparisons; otherwise `Ok(())`. -/
def validate_context_response (response : PlantContextResponse) :
    Except DatabaseError Unit :=
  if response.query.isEmpty then
    Except.error (DatabaseError.ValidationError "Query cannot be empty")
  else if response.context.isEmpty then
    Except.error (DatabaseError.ValidationError "Context cannot be empty")
  else if FloatVal.flt response.confidence_score (FloatVal.fin 0) ||
      FloatVal.flt (FloatVal.fin 1) response.confidence_score then
    Except.error (DatabaseError.ValidationError
      "Confidence score must be between 0.0 and 1.0")
  else
    Except.ok ()

/-!  Concrete sample values used by counterexamples and witnesses. -/

/-- A concrete species value (the one the repository's own tests use). -/
def sampleSpecies : Species :=
  { id := ⟨1⟩
    genus_id := ⟨2⟩
    specific_epithet := "rubiginosa"
    authority := "L."
    publication_year := none }

/-- A concrete context response with the given confidence score. -/
def sampleResponse (score : FloatVal) : PlantContextResponse :=
  { plant_id := ⟨0⟩
    query := "Test query"
    context := "Test context"
    recommendations := []
    relevant_documents := []
    confidence_score := score }

/-!  Theorems: the claims. -/

/-- C1: for every ConservationAssessment, `get_conservation_priority` returns
exactly the literal table value determined by its category — NotEvaluated=0,
LeastConcern=1, DataDeficient=3, NearThreatened=4, Vulnerable=6, Endangered=7,
CriticallyEndangered=8, ExtinctInWild=9, Extinct=10 (`specPriorityTable`) — so
for all 9 categories the result is a deterministic integer in [0,10], with
DataDeficient=3 strictly below NearThreatened=4. -/
theorem get_conservation_priority_matches_spec_table (a : ConservationAssessment) :
    get_conservation_priority a = specPriorityTable a.category ∧
    get_conservation_priority a ≤ 10 ∧
    specPriorityTable IUCNCategory.DataDeficient <
      specPriorityTable IUCNCategory.NearThreatened := by
  rcases a with ⟨c, _, _, _, _, _, _, _, _⟩
  cases c <;> refine ⟨rfl, ?_, by decide⟩ <;> simp [get_conservation_priority]

/-- C2: for every ConservationAssessment, `is_species_threatened` returns true
iff its category is one of Vulnerable, Endangered, CriticallyEndangered,
ExtinctInWild, Extinct, and false for the other four categories. -/
theorem is_species_threatened_iff (a : ConservationAssessment) :
    (is_species_threatened a = true ↔
      (a.category = IUCNCategory.Vulnerable ∨
       a.category = IUCNCategory.Endangered ∨
       a.category = IUCNCategory.CriticallyEndangered ∨
       a.category = IUCNCategory.ExtinctInWild ∨
       a.category = IUCNCategory.Extinct)) ∧
    (is_species_threatened a = false ↔
      (a.category = IUCNCategory.NotEvaluated ∨
       a.category = IUCNCategory.DataDeficient ∨
       a.category = IUCNCategory.LeastConcern ∨
       a.category = IUCNCategory.NearThreatened)) := by
  rcases a with ⟨c, _, _, _, _, _, _, _, _⟩
  cases c <;> simp [is_species_threatened]

/-- C3: `create_occurrence_record` stores each coordinate axis independently:
with `some (lat, lon)` the latitude field is `some lat` unless `lat` compares
IEEE-equal to 0.0 (then it is `none`), likewise the longitude field for `lon`;
with no location both coordinate fields are `none`. -/
theorem create_occurrence_record_coordinate_axes (fresh_id : Uuid) (species : Species)
    (genus_name family_name : String) (collector : Option String) (lat lon : FloatVal) :
    ((create_occurrence_record fresh_id species genus_name family_name
        (some (lat, lon)) collector).decimal_latitude
      = if FloatVal.feq lat (FloatVal.fin 0) then none else some lat) ∧
    ((create_occurrence_record fresh_id species genus_name family_name
        (some (lat, lon)) collector).decimal_longitude
      = if FloatVal.feq lon (FloatVal.fin 0) then none else some lon) ∧
    (create_occurrence_record fresh_id species genus_name family_name
        none collector).decimal_latitude = none ∧
    (create_occurrence_record fresh_id species genus_name family_name
        none collector).decimal_longitude = none := by
  refine ⟨?_, ?_, ?_, ?_⟩
  · cases h : FloatVal.feq lat (FloatVal.fin 0) <;>
      simp [create_occurrence_record, FloatVal.fne, h]
  · cases h : FloatVal.feq lon (FloatVal.fin 0) <;>
      simp [create_occurrence_record, FloatVal.fne, h]
  · simp [create_occurrence_record, FloatVal.fne, FloatVal.feq]
  · simp [create_occurrence_record, FloatVal.fne, FloatVal.feq]

/-- C5: `species_to_darwin_core_taxon` returns a taxon whose scientific name
is the genus name, one space, and the specific epithet; whose authorship is
`some` of the species' authority; and whose status, rank and nomenclatural
code are the fixed values Accepted, Species and `some ICN`. -/
theorem species_to_darwin_core_taxon_fields (fresh_id : Uuid) (species : Species)
    (genus_name : String) :
    (species_to_darwin_core_taxon fresh_id species genus_name).scientific_name
      = genus_name ++ " " ++ species.specific_epithet ∧
    (species_to_darwin_core_taxon fresh_id species genus_name).scientific_name_authorship
      = some species.authority ∧
    (species_to_darwin_core_taxon fresh_id species genus_name).taxonomic_status
      = TaxonomicStatus.Accepted ∧
    (species_to_darwin_core_taxon fresh_id species genus_name).taxon_rank
      = TaxonRank.Species ∧
    (species_to_darwin_core_taxon fresh_id species genus_name).nomenclatural_code
      = some NomenclaturalCode.ICN :=
  ⟨rfl, rfl, rfl, rfl, rfl⟩

/-- C6: `validate_darwin_core_record` returns exactly one warning per failing
completeness check, in the fixed order coordinates, date, recorder (a single
warning for coordinates even when both axes are missing), and returns the
empty list iff none of the three conditions holds. -/
theorem validate_darwin_core_record_spec (record : DarwinCoreOccurrence) :
    (validate_darwin_core_record record =
      (if record.decimal_latitude.isNone || record.decimal_longitude.isNone then
        ["Missing geographic coordinates"] else []) ++
      (if record.event_date.isNone then ["Missing collection date"] else []) ++
      (if record.recorded_by.isNone then ["Missing collector information"] else [])) ∧
    (validate_darwin_core_record record = [] ↔
      ((record.decimal_latitude.isNone || record.decimal_longitude.isNone) = false ∧
       record.event_date.isNone = false ∧
       record.recorded_by.isNone = false)) := by
  cases h1 : record.decimal_latitude.isNone || record.decimal_longitude.isNone <;>
    cases h2 : record.event_date.isNone <;>
      cases h3 : record.recorded_by.isNone <;>
        simp [validate_darwin_core_record, h1, h2, h3]

/-- C4 counterexample: with location `some (0.0, 1.0)` the produced record has
an absent latitude but a present longitude, so the coordinate fields of a
`create_occurrence_record` output are not always jointly present or jointly
absent. -/
theorem create_occurrence_record_coordinates_not_joint :
    ¬ (((create_occurrence_record ⟨0⟩ sampleSpecies "Rosa" "Rosaceae"
          (some (FloatVal.fin 0, FloatVal.fin 1)) none).decimal_latitude.isSome = true) ↔
       ((create_occurrence_record ⟨0⟩ sampleSpecies "Rosa" "Rosaceae"
          (some (FloatVal.fin 0, FloatVal.fin 1)) none).decimal_longitude.isSome = true)) := by
  simp [create_occurrence_record, FloatVal.fne, FloatVal.feq]

/-- C4 amended: the coordinate fields of a `create_occurrence_record` output
are jointly present or jointly absent whenever the location is absent, or the
two coordinates agree on whether they compare IEEE-equal to 0.0; in general
each axis is stored independently, so a location with exactly one zero axis
yields one present and one absent field. -/
theorem create_occurrence_record_coordinates_joint_when_agreeing (fresh_id : Uuid)
    (species : Species) (genus_name family_name : String) (collector : Option String)
    (lat lon : FloatVal) :
    (((create_occurrence_record fresh_id species genus_name family_name
        none collector).decimal_latitude.isSome = true) ↔
     ((create_occurrence_record fresh_id species genus_name family_name
        none collector).decimal_longitude.isSome = true)) ∧
    (FloatVal.feq lat (FloatVal.fin 0) = FloatVal.feq lon (FloatVal.fin 0) →
      (((create_occurrence_record fresh_id species genus_name family_name
          (some (lat, lon)) collector).decimal_latitude.isSome = true) ↔
       ((create_occurrence_record fresh_id species genus_name family_name
          (some (lat, lon)) collector).decimal_longitude.isSome = true))) := by
  constructor
  · simp [create_occurrence_record, FloatVal.fne, FloatVal.feq]
  · intro h
    cases h1 : FloatVal.feq lat (FloatVal.fin 0) <;>
      rw [h1] at h <;>
        simp [create_occurrence_record, FloatVal.fne, h1, h.symm]

/-- C4 amended witness: instantiated at two nonzero coordinates. -/
theorem create_occurrence_record_coordinates_joint_witness :
    FloatVal.feq (FloatVal.fin 1) (FloatVal.fin 0)
        = FloatVal.feq (FloatVal.fin 2) (FloatVal.fin 0) ∧
    (((create_occurrence_record ⟨0⟩ sampleSpecies "Rosa" "Rosaceae"
        (some (FloatVal.fin 1, FloatVal.fin 2)) none).decimal_latitude.isSome = true) ↔
     ((create_occurrence_record ⟨0⟩ sampleSpecies "Rosa" "Rosaceae"
        (some (FloatVal.fin 1, FloatVal.fin 2)) none).decimal_longitude.isSome = true)) :=
  ⟨by decide,
   (create_occurrence_record_coordinates_joint_when_agreeing ⟨0⟩ sampleSpecies
      "Rosa" "Rosaceae" none (FloatVal.fin 1) (FloatVal.fin 2)).2 (by decide)⟩

/-- Pushing a conditional push onto a vector out of the conditional: the
shape `if c \x7b v.push(s) \x7d` used by the extractor equals appending a
conditional singleton. -/
theorem ite_append_push (c : Bool) (r : List String) (s : String) :
    (if c then r ++ [s] else r) = r ++ (if c then [s] else []) := by
  cases c <;> simp

/-- Filtering a rule-table cons cell and mapping to the emitted strings splits
off a conditional singleton for the head rule. -/
theorem filter_map_emitted_cons (r : KeywordRule) (rs : List KeywordRule) (cl : String) :
    (List.filter (fun x => x.fires cl) (r :: rs)).map KeywordRule.emitted
      = (if r.fires cl then [r.emitted] else [])
        ++ (List.filter (fun x => x.fires cl) rs).map KeywordRule.emitted := by
  cases h : r.fires cl <;> simp [List.filter_cons, h]

/-- Appending the fallback to an empty accumulator is the same as replacing it
by the fallback. -/
theorem ite_isEmpty_fallback (L : List String) (fb : String) :
    L ++ (if L.isEmpty then [fb] else []) = if L.isEmpty then [fb] else L := by
  cases L <;> simp

/-- C7: `extract_recommendations` returns the empty list on the empty string;
on a non-empty string where no keyword rule fires it returns exactly the
fallback string; and when rules fire it returns exactly the fired rules'
literal recommendations in rule-table order, without the fallback. -/
theorem extract_recommendations_spec (context : String) :
    extract_recommendations context =
      if context.isEmpty then []
      else if (firedRecommendations (to_lowercase context)).isEmpty then
        ["Review cultivation data and environmental conditions"]
      else firedRecommendations (to_lowercase context) := by
  cases h : context.isEmpty with
  | true => simp [extract_recommendations, h]
  | false =>
    simp only [extract_recommendations, h, Bool.false_eq_true, if_false, ite_append_push]
    simp only [ite_isEmpty_fallback]
    simp only [firedRecommendations, recommendationRules, filter_map_emitted_cons,
      List.filter_nil, List.map_nil, List.nil_append, List.append_nil, List.append_assoc]

/-- C8: `validate_context_response` accepts a response iff its query and
context are non-empty and its confidence score fails both IEEE comparisons
`score < 0.0` and `score > 1.0`; otherwise it returns a ValidationError.  In
particular it accepts confidence 0.0 and 1.0 and rejects 1.5 and -0.1. -/
theorem validate_context_response_spec (r : PlantContextResponse) :
    ((validate_context_response r = Except.ok ()) ↔
      (r.query.isEmpty = false ∧ r.context.isEmpty = false ∧
       FloatVal.flt r.confidence_score (FloatVal.fin 0) = false ∧
       FloatVal.flt (FloatVal.fin 1) r.confidence_score = false)) ∧
    ((∃ msg, validate_context_response r
        = Except.error (DatabaseError.ValidationError msg)) ↔
      (r.query.isEmpty = true ∨ r.context.isEmpty = true ∨
       FloatVal.flt r.confidence_score (FloatVal.fin 0) = true ∨
       FloatVal.flt (FloatVal.fin 1) r.confidence_score = true)) ∧
    validate_context_response (sampleResponse (FloatVal.fin 0)) = Except.ok () ∧
    validate_context_response (sampleResponse (FloatVal.fin 1)) = Except.ok () ∧
    validate_context_response (sampleResponse (FloatVal.fin (3/2)))
      = Except.error (DatabaseError.ValidationError
          "Confidence score must be between 0.0 and 1.0") ∧
    validate_context_response (sampleResponse (FloatVal.fin (-1/10)))
      = Except.error (DatabaseError.ValidationError
          "Confidence score must be between 0.0 and 1.0") := by
  have hsq : ("Test query" : String).isEmpty = false := rfl
  have hsc : ("Test context" : String).isEmpty = false := rfl
  refine ⟨?_, ?_, ?_, ?_, ?_, ?_⟩
  · cases hq : r.query.isEmpty <;>
      cases hc : r.context.isEmpty <;>
        cases hlo : FloatVal.flt r.confidence_score (FloatVal.fin 0) <;>
          cases hhi : FloatVal.flt (FloatVal.fin 1) r.confidence_score <;>
            simp [validate_context_response, hq, hc, hlo, hhi]
  · cases hq : r.query.isEmpty <;>
      cases hc : r.context.isEmpty <;>
        cases hlo : FloatVal.flt r.confidence_score (FloatVal.fin 0) <;>
          cases hhi : FloatVal.flt (FloatVal.fin 1) r.confidence_score <;>
            simp [validate_context_response, hq, hc, hlo, hhi]
  · have h1 : FloatVal.flt (FloatVal.fin 0) (FloatVal.fin 0) = false := by
      norm_num [FloatVal.flt]
    have h2 : FloatVal.flt (FloatVal.fin 1) (FloatVal.fin 0) = false := by
      norm_num [FloatVal.flt]
    simp [validate_context_response, sampleResponse, hsq, hsc, h1, h2]
  · have h1 : FloatVal.flt (FloatVal.fin 1) (FloatVal.fin 0) = false := by
      norm_num [FloatVal.flt]
    have h2 : FloatVal.flt (FloatVal.fin 1) (FloatVal.fin 1) = false := by
      norm_num [FloatVal.flt]
    simp [validate_context_response, sampleResponse, hsq, hsc, h1, h2]
  · have h1 : FloatVal.flt (FloatVal.fin 1) (FloatVal.fin (3/2)) = true := by
      norm_num [FloatVal.flt]
    simp [validate_context_response, sampleResponse, hsq, hsc, h1]
  · have h1 : FloatVal.flt (FloatVal.fin (-1/10)) (FloatVal.fin 0) = true := by
      norm_num [FloatVal.flt]
    simp [validate_context_response, sampleResponse, hsq, hsc, h1]

/-- Helper: the integration boundary always produces an `Ok` value, whatever
the fetch result was. -/
theorem handle_conservation_fetch_total
    (r : Except String (Option ConservationAssessment)) :
    ∃ v, handle_conservation_fetch r = Except.ok v := by
  rcases r with e | (_ | a)
  · exact ⟨none, rfl⟩
  · exact ⟨none, rfl⟩
  · exact ⟨some a, rfl⟩

/-- C9: the mock assessment lookup yields `Some` exactly for the two
hard-coded scientific names and `None` for every other name; the integration
wrapper maps a fetch error to `Ok(None)` and, for every input, resolves to
some `Ok` value (an error is never surfaced). -/
theorem conservation_lookup_and_degradation :
    (∀ name : String,
      (∃ a, fetch_mock_conservation_data name = Except.ok (some a)) ↔
        (name = "Cannabis sativa" ∨ name = "Welwitschia mirabilis")) ∧
    (∀ e : String, handle_conservation_fetch (Except.error e) = Except.ok none) ∧
    (∀ r, ∃ v, handle_conservation_fetch r = Except.ok v) ∧
    (∀ name : String, ∃ v, update_species_conservation_status name = Except.ok v) := by
  refine ⟨?_, fun e => rfl, handle_conservation_fetch_total, ?_⟩
  · intro name
    constructor
    · rintro ⟨a, ha⟩
      simp only [fetch_mock_conservation_data, Except.ok.injEq] at ha
      split at ha
      · left; rfl
      · right; rfl
      · exact absurd ha (by simp)
    · rintro (rfl | rfl)
      · exact ⟨_, rfl⟩
      · exact ⟨_, rfl⟩
  · intro name
    exact handle_conservation_fetch_total (get_conservation_status name)

/-- C10: a response with non-empty query and context and a NaN confidence
score passes `validate_context_response`, because both IEEE comparisons
`score < 0.0` and `score > 1.0` are false for NaN. -/
theorem validate_context_response_accepts_nan (plant_id : Uuid) (q c : String)
    (recs : List String) (docs : List ContextDocument)
    (hq : q.isEmpty = false) (hc : c.isEmpty = false) :
    validate_context_response
      { plant_id := plant_id, query := q, context := c, recommendations := recs,
        relevant_documents := docs, confidence_score := FloatVal.nan }
      = Except.ok () ∧
    FloatVal.flt FloatVal.nan (FloatVal.fin 0) = false ∧
    FloatVal.flt (FloatVal.fin 1) FloatVal.nan = false := by
  refine ⟨?_, rfl, rfl⟩
  simp [validate_context_response, hq, hc, FloatVal.flt]

/-- C10 witness: a concrete NaN-confidence response is accepted. -/
theorem validate_context_response_accepts_nan_witness :
    ("Test query" : String).isEmpty = false ∧
    ("Test context" : String).isEmpty = false ∧
    validate_context_response
      { plant_id := ⟨0⟩, query := "Test query", context := "Test context",
        recommendations := [], relevant_documents := [],
        confidence_score := FloatVal.nan } = Except.ok () :=
  ⟨rfl, rfl,
    (validate_context_response_accepts_nan ⟨0⟩ "Test query" "Test context"
      [] [] rfl rfl).1⟩

end Botanica
